import Mathlib

/-!
Verification development for the jrod scaffolding CLI.

The development shallowly embeds the two core subsystems of the repository:

* the template renderer of src/utils.ts (renderTemplates), and
* the process orchestration of src/commands/mk-next/mk-next.ts
  (run, runInherit, the mkNextApp pipeline, the mknext command wrapper),

together with the development-mode detector isDevEnvironment of utils.ts.

Filesystem reads, child processes and the ambient environment are passed in
explicitly (a World value supplies the outcome of each spawned command, the
environment, the template tree and the directory levels above the
running program), so every definition is an executable Lean function.
-/

/-! ## String primitives

The JS string methods the source uses (endsWith, startsWith, the
end-anchored replace, the last path component drop) are given directly as
structurally recursive functions over the character list of a string, so
that every theorem about them evaluates by kernel reduction.
-/

/-- JS startsWith: the first string begins with the second. -/
def strStartsWith (s pre : String) : Bool := List.isPrefixOf pre.data s.data

/-- JS endsWith: the first string ends with the second. -/
def strEndsWith (s suf : String) : Bool :=
  List.isPrefixOf suf.data.reverse s.data.reverse

/-- Drop the last n characters of a string. -/
def strDropRight (s : String) (n : Nat) : String :=
  String.mk (s.data.take (s.data.length - n))

/-! ## JavaScript-style objects

Template data and per-file overrides are plain JS objects in the source
(Record of string keys).  They are modelled as association lists with
first-match lookup; values are modelled as strings, which is what the
pipeline actually stores in them (a connection URL).
-/

/-- A JS object: string keys to (string) values, first match wins on lookup. -/
abbrev JsObj : Type := List (String × String)

/-- Key lookup in a JS object. -/
def JsObj.get (o : JsObj) (k : String) : Option String :=
  (List.find? (fun p => p.1 == k) o).map (fun p => p.2)

/-- The JS spread merge on two objects, as in the source line
mergedData = spread of data then fileVars: a key of extra shadows the
same key of base, because lookup is first-match and extra comes first. -/
def spreadMerge (base extra : JsObj) : JsObj := extra ++ base

/-- Lookup of a per-file override entry (indexing the variable map of the
options, as the source does with bracket indexing).
A present key maps to an object; presence is what matters to the
JS truthiness test. -/
def lookupVars (vs : List (String × JsObj)) (k : String) : Option JsObj :=
  (List.find? (fun p => p.1 == k) vs).map (fun p => p.2)

/-- The per-file variable object chosen for one template entry, from the
source line selecting the entry keyed on outRel, else the entry keyed on
relFromTemplates, else the empty object.
In JS every object - including the empty one - is truthy, so whenever the
destination-relative key is present its object is taken wholesale and the
template-relative entry is never consulted. -/
def fileVarsFor (varMap : Option (List (String × JsObj)))
    (outRel relFromTemplates : String) : JsObj :=
  match varMap with
  | none => []
  | some vs =>
    match lookupVars vs outRel with
    | some v => v
    | none => (lookupVars vs relFromTemplates).getD []

/-! ## Template renderer (renderTemplates in src/utils.ts) -/

/-- A node of the template filesystem tree handed to the directory walk:
either a regular file with its text content, or a directory with a listing
of named children in readdir order. -/
inductive FsNode where
  | file (content : String)
  | dir (entries : List (String × FsNode))

/-- One observable effect of a renderTemplates call: a console warning,
a console log, a recursive directory creation, or a file write. -/
inductive RenderEffect where
  | warn (msg : String)
  | log (msg : String)
  | mkdirp (path : String)
  | write (path : String) (content : String)
deriving DecidableEq

/-- The options bag of renderTemplates, with the defaults of the source. -/
structure RenderTemplatesOptions where
  projectDir : String
  templatesDir : String
  data : JsObj := []
  verbose : Bool := true
  varMap : Option (List (String × JsObj)) := none

/-- Extend a root-relative path by one component (empty rel means the root,
matching how path.relative composes along the walk of the source). -/
def joinRel (rel name : String) : String :=
  if rel = "" then name else rel ++ "/" ++ name

/-- path.join of the source for a directory and a relative path below it. -/
def joinPath (a b : String) : String := a ++ "/" ++ b

/-- The source expression replacing a trailing .eta: strips the suffix when
present, otherwise leaves the string unchanged. -/
def stripEtaSuffix (s : String) : String :=
  if strEndsWith s ".eta" then strDropRight s 4 else s

/-- path.dirname for the joined output paths produced by the walk
(every such path contains a slash). -/
def pathDirname (p : String) : String :=
  String.mk (((p.data.reverse.dropWhile (fun c => !(c == '/'))).drop 1).reverse)

mutual

/-- The recursive walk of renderTemplates, one step per directory entry.
rs is the text-substitution engine (eta.renderString), a fallible function
of the template text and the merged data.  Directories are traversed in
listing order; files are template entries only when their name ends in
.eta, all other files are skipped.  A failing render aborts the whole pass
with the message of the source.  renderNode handles one directory entry;
rel is the path of the enclosing directory relative to the templates
root. -/
def renderNode (rs : String → JsObj → Except String String)
    (projectDir : String) (data : JsObj) (verbose : Bool)
    (varMap : Option (List (String × JsObj))) (rel name : String) :
    FsNode → Except String (List RenderEffect)
  | FsNode.dir sub => renderEntries rs projectDir data verbose varMap (joinRel rel name) sub
  | FsNode.file content =>
      if strEndsWith name ".eta" then
        let relFromTemplates := joinRel rel name
        let outRel := stripEtaSuffix relFromTemplates
        let outPath := joinPath projectDir outRel
        let fileVars := fileVarsFor varMap outRel relFromTemplates
        let mergedData := spreadMerge data fileVars
        match rs content mergedData with
        | Except.error msg =>
            Except.error ("Failed rendering template " ++ relFromTemplates ++ ": " ++ msg)
        | Except.ok rendered =>
            Except.ok (RenderEffect.mkdirp (pathDirname outPath) ::
                       RenderEffect.write outPath rendered ::
                       (if verbose then [RenderEffect.log ("  • " ++ outRel)] else []))
      else
        Except.ok []

/-- The walk of renderTemplates over one directory listing, in readdir
order. -/
def renderEntries (rs : String → JsObj → Except String String)
    (projectDir : String) (data : JsObj) (verbose : Bool)
    (varMap : Option (List (String × JsObj))) (rel : String) :
    List (String × FsNode) → Except String (List RenderEffect)
  | [] => Except.ok []
  | (name, node) :: rest => do
      let e1 ← renderNode rs projectDir data verbose varMap rel name node
      let e2 ← renderEntries rs projectDir data verbose varMap rel rest
      Except.ok (e1 ++ e2)

end

/-- renderTemplates of src/utils.ts.  templatesRootEntries is the listing of
the templates root directory when it exists and none when fs.existsSync is
false; in the latter case the call returns after at most a warning, touching
nothing.  The result is the list of observable effects, or the error thrown
by a failing render. -/
def renderTemplates (rs : String → JsObj → Except String String)
    (templatesRootEntries : Option (List (String × FsNode)))
    (opts : RenderTemplatesOptions) : Except String (List RenderEffect) :=
  match templatesRootEntries with
  | none =>
      Except.ok (if opts.verbose then
        [RenderEffect.warn ("[renderTemplates] templatesDir does not exist: " ++ opts.templatesDir)]
      else [])
  | some entries => do
      let pre := if opts.verbose then [RenderEffect.log "▶ Rendering Eta templates..."] else []
      let effs ← renderEntries rs opts.projectDir opts.data opts.verbose opts.varMap "" entries
      Except.ok (pre ++ effs)

/-- A probe substitution engine for the theorems: renders a template to the
value bound to key k in the effective data, making the variable scope that
renderTemplates passes to the engine directly observable in the output. -/
def probeKey (k : String) : String → JsObj → Except String String :=
  fun _ o => Except.ok ((JsObj.get o k).getD "<missing>")

/-! ## Process runner (run and runInherit in mk-next.ts) -/

/-- The options bag of the capturing runner run, with the defaults of the
source.  cwd, env and input shape the spawned child and are carried for
fidelity; the decision logic of run reads only allowFail. -/
structure RunOptions where
  cwd : Option String := none
  env : List (String × String) := []
  input : Option String := none
  allowFail : Bool := false

/-- What a spawned child process did: either the error event fired (the
executable could not be spawned), or the close event fired with an exit
code (null when the process was terminated without one, for example by a
signal) and the accumulated stdout and stderr text. -/
inductive ChildOutcome where
  | spawnError (err : String)
  | closed (code : Option Int) (stdout stderr : String)
deriving DecidableEq

/-- The resolved value of run: exit code (null possible), captured stdout
and captured stderr. -/
structure RunResult where
  code : Option Int
  stdout : String
  stderr : String
deriving DecidableEq

/-- How an invocation of run or runInherit rejects: with the spawn error
from the error event, or with the constructed failure of the close handler
carrying the command line, exit code and (for run) captured stderr. -/
inductive RunError where
  | spawnError (reason : String)
  | commandFailed (cmd : String) (args : List String) (code : Option Int) (stderr : String)
  | inheritFailed (cmd : String) (args : List String) (code : Option Int)
deriving DecidableEq

/-- String rendering of an exit code inside an error message, matching JS
template interpolation of a number or null. -/
def optCodeStr : Option Int → String
  | none => "null"
  | some c => toString c

/-- The message text of the Error values the source rejects with; the
command wrapper prints this text on failure. -/
def RunError.message : RunError → String
  | RunError.spawnError reason => reason
  | RunError.commandFailed cmd args code stderr =>
      cmd ++ " " ++ String.intercalate " " args ++ " exited with code " ++
        optCodeStr code ++ "\n" ++ stderr
  | RunError.inheritFailed cmd args code =>
      cmd ++ " " ++ String.intercalate " " args ++ " failed with code " ++ optCodeStr code

/-- run of mk-next.ts: rejects on a spawn error; on close rejects when the
exit code differs from zero and allowFail is false, and otherwise resolves
with the code and the captured output. -/
def run (cmd : String) (args : List String) (opts : RunOptions)
    (outcome : ChildOutcome) : Except RunError RunResult :=
  match outcome with
  | ChildOutcome.spawnError e => Except.error (RunError.spawnError e)
  | ChildOutcome.closed code out err =>
      if code ≠ some 0 ∧ opts.allowFail = false then
        Except.error (RunError.commandFailed cmd args code err)
      else
        Except.ok { code := code, stdout := out, stderr := err }

/-- runInherit of mk-next.ts: the streaming variant; rejects on a spawn
error or on any close with a code other than zero, and resolves with no
value otherwise (output went to the terminal, not to the caller). -/
def runInherit (cmd : String) (args : List String)
    (outcome : ChildOutcome) : Except RunError Unit :=
  match outcome with
  | ChildOutcome.spawnError e => Except.error (RunError.spawnError e)
  | ChildOutcome.closed code _ _ =>
      if code ≠ some 0 then Except.error (RunError.inheritFailed cmd args code)
      else Except.ok ()

/-! ## Value extraction (the create-db stdout scan in mkNextApp) -/

/-- Splitting a character list the way the JS regex split on runs of
whitespace does: a maximal whitespace run separates tokens, a leading or
trailing run contributes an empty token at that end. -/
def splitWsGo : List Char → Bool → List Char → List String
  | [], _, acc => [String.mk acc.reverse]
  | c :: cs, inSep, acc =>
      if c.isWhitespace then
        if inSep then splitWsGo cs true acc
        else String.mk acc.reverse :: splitWsGo cs true []
      else splitWsGo cs false (c :: acc)

/-- stdout.split on the whitespace-run regex, as in the source. -/
def splitWs (s : String) : List String := splitWsGo s.data false []

/-- The value-extraction expression of mkNextApp: the first
whitespace-delimited token of the captured stdout starting with the
postgresql scheme, or the empty string when none matches (the or-empty
fallback of the source). -/
def extractDbUrl (stdout : String) : String :=
  ((splitWs stdout).find? (fun tok => strStartsWith tok "postgresql://")).getD ""

/-! ## Development-mode detection (isDevEnvironment in utils.ts) -/

/-- What the detector can observe about one directory on the upward walk
from the directory of the running program: whether a package.json file
exists there and whether a .git directory exists there. -/
structure DirLevel where
  hasPackageJson : Bool
  hasGitDir : Bool
deriving DecidableEq

/-- The bounded upward loop of isDevEnvironment: at each level, a present
package.json ends the walk immediately with the co-located .git test;
otherwise the walk moves to the parent, stopping when the level budget or
the ancestor chain (parent equal to the directory itself) runs out. -/
def devWalk : Nat → List DirLevel → Bool
  | 0, _ => false
  | _ + 1, [] => false
  | n + 1, l :: rest => if l.hasPackageJson then l.hasGitDir else devWalk n rest

/-- isDevEnvironment of utils.ts: true when the forcing environment
variable equals the string 1, and otherwise the result of walking at most
six directory levels upward.  forceDev is the value of the environment
variable JR_SCRIPTS_FORCE_DEV; levels lists the directory of the running
program and its ancestors in order.  (The try-catch of the source around
the walk only swallows filesystem errors, which the explicit levels model
cannot produce.) -/
def isDevEnvironment (forceDev : Option String) (levels : List DirLevel) : Bool :=
  if forceDev = some "1" then true else devWalk 6 levels

/-- Modelled from the claim text for the detection contract (spec section
six), for comparison against isDevEnvironment: the bounded upward walk
finds some level, within the six examined, holding a package manifest
co-located with version-control metadata. -/
def specDevWalkFinds (levels : List DirLevel) : Bool :=
  (levels.take 6).any fun l => l.hasPackageJson && l.hasGitDir

/-! ## Pipeline orchestrator (mkNextApp and the mknext command wrapper) -/

/-- One observable event of a pipeline run: a capturing spawn, a streaming
spawn, a filesystem append or write, the effect list of the template render
pass, a console log, or a console warning. -/
inductive Ev where
  | ran (cmd : String) (args : List String)
  | ranInherit (cmd : String) (args : List String)
  | fsAppend (path content : String)
  | fsWrite (path content : String)
  | rendered (effects : List RenderEffect)
  | log (msg : String)
  | warn (msg : String)
deriving DecidableEq

/-- The event trace of one pipeline run, in program order. -/
abbrev Trace := List Ev

/-- The state of a pipeline computation after some steps: the trace so far,
and either a value or the message of the exception that unwound it. -/
inductive PRes (α : Type) where
  | ok (trace : Trace) (a : α)
  | err (trace : Trace) (msg : String)
deriving DecidableEq

/-- A pipeline computation: trace-extending and exception-short-circuiting,
mirroring sequential await with thrown Error values in the source. -/
def P (α : Type) : Type := Trace → PRes α

/-- Sequencing of pipeline computations: the second runs only when the
first did not throw, and the trace accumulates. -/
def pbind {α β : Type} (m : P α) (f : α → P β) : P β := fun t =>
  match m t with
  | PRes.ok t' a => f a t'
  | PRes.err t' msg => PRes.err t' msg

instance : Monad P where
  pure a := fun t => PRes.ok t a
  bind := pbind

/-- Record one event. -/
def emit (e : Ev) : P Unit := fun t => PRes.ok (t ++ [e]) ()

/-- Throw an Error with the given message. -/
def pfail {α : Type} (msg : String) : P α := fun t => PRes.err t msg

/-- A JS try-catch around a pipeline computation: the handler receives the
message of a thrown exception; side effects already performed stay in the
trace. -/
def tryCatchP {α : Type} (m : P α) (h : String → P α) : P α := fun t =>
  match m t with
  | PRes.ok t' a => PRes.ok t' a
  | PRes.err t' msg => h msg t'

/-- Everything the pipeline observes about the outside world.  child gives
the outcome of spawning a command line (each command line of the pipeline
is distinct, so keying outcomes on it loses nothing; the working directory
and env that the source passes to spawn shape that outcome, they do not
change the decision logic).  envVar is process.env, platform is
process.platform, nodeVersion is process.version, cwd is process.cwd,
dirname is the directory of the running program; templatesRootEntries and
dirnameLevels are the filesystem as seen by renderTemplates and
isDevEnvironment; renderString is the Eta engine. -/
structure World where
  platform : String
  nodeVersion : String
  cwd : String
  dirname : String
  envVar : String → Option String
  child : String → List String → ChildOutcome
  templatesRootEntries : Option (List (String × FsNode))
  dirnameLevels : List DirLevel
  renderString : String → JsObj → Except String String

/-- await run of the source inside the pipeline: records the spawn and
either yields the result or throws the message of the rejection. -/
def runP (w : World) (cmd : String) (args : List String) (opts : RunOptions) :
    P RunResult := fun t =>
  match run cmd args opts (w.child cmd args) with
  | Except.ok r => PRes.ok (t ++ [Ev.ran cmd args]) r
  | Except.error er => PRes.err (t ++ [Ev.ran cmd args]) er.message

/-- await runInherit of the source inside the pipeline. -/
def runInheritP (w : World) (cmd : String) (args : List String) : P Unit := fun t =>
  match runInherit cmd args (w.child cmd args) with
  | Except.ok _ => PRes.ok (t ++ [Ev.ranInherit cmd args]) ()
  | Except.error er => PRes.err (t ++ [Ev.ranInherit cmd args]) er.message

/-- The argument list of the primary scaffold command (create-next-app). -/
def scaffoldArgs (appName : String) : List String :=
  ["create-next-app@latest", appName, "--yes", "--use-npm"]

/-- mkNextApp from its start through the schema push: the argument check,
the runtime preflight, the primary scaffold, the dependent installs and
inits, the database provisioning with value harvesting, the template
render pass, and the required post-processing steps, in source order. -/
def mkNextUntilDbPush (w : World) (appName : String) : P Unit := do
  (if appName = "" then
    pfail "Error: provide a project directory name. Usage: mknext <app-name>"
  else pure ())
  (if w.nodeVersion = "" then pfail "Node.js runtime not detected" else pure ())
  tryCatchP (do let _ ← runP w "npm" ["--version"] {}; pure ())
    (fun _ => pfail "npm not found on PATH")
  emit (Ev.log ("▶ Creating Next.js app: " ++ appName))
  runInheritP w "npx" (scaffoldArgs appName)
  let projectDir := joinPath w.cwd appName
  emit (Ev.fsAppend (joinPath projectDir ".gitignore") "\n.env.*.local")
  emit (Ev.log "▶ Initializing shadcn/ui (non-interactive)")
  runInheritP w "npx"
    ["--yes", "shadcn@latest", "init", "-y", "--template", "next", "--base-color", "neutral"]
  emit (Ev.log "▶ Adding ALL shadcn/ui components")
  runInheritP w "npx" ["--yes", "shadcn@latest", "add", "--all", "-y"]
  emit (Ev.log "▶ Installing additional dependencies (Prisma, better-auth)")
  runInheritP w "npm" ["install", "-D", "prisma"]
  runInheritP w "npm" ["install", "@prisma/client", "better-auth"]
  emit (Ev.log "▶ Prisma init (PostgreSQL)")
  runInheritP w "npx" ["prisma", "init", "--datasource-provider", "postgresql"]
  emit (Ev.fsWrite (joinPath projectDir ".env") "")
  emit (Ev.log "▶ Creating a temporary Prisma Postgres database (expires ~24h)")
  let createDb ← runP w "npx" ["--yes", "create-db@latest"] { allowFail := true }
  let dbUrlMatch := extractDbUrl createDb.stdout
  (if dbUrlMatch = "" then
    pfail "Failed to obtain a database URL from create-db."
  else pure ())
  emit (Ev.log "▶ Adding template code")
  (match renderTemplates w.renderString w.templatesRootEntries
      { projectDir := projectDir,
        templatesDir := joinPath w.dirname "templates",
        varMap := some [(".env.local", [("DATABASE_URL", dbUrlMatch)])] } with
   | Except.ok effs => emit (Ev.rendered effs)
   | Except.error msg => pfail msg)
  emit (Ev.log "▶ Prisma generate")
  runInheritP w "npx" ["prisma", "generate"]
  emit (Ev.log "▶ Running better-auth CLI generate (auto-confirm)")
  let _ ← runP w "npx" ["@better-auth/cli@latest", "generate"]
    { input := some "y\n", allowFail := true }
  emit (Ev.log "▶ Pushing Prisma schema to remote database")
  runInheritP w "npx" ["env-cmd", "-f", ".env.local", "prisma", "db", "push"]

/-- The version-control phase of mkNextApp: skipped with a log line in dev
mode, and otherwise a try-catch around git add (failure policy of run
defaults to strict) followed by git commit (allowFail), with any caught
exception logged as a warning. -/
def gitCommitPhase (w : World) : P Unit :=
  if isDevEnvironment (w.envVar "JR_SCRIPTS_FORCE_DEV") w.dirnameLevels then
    emit (Ev.log "▶ Skipping git commit (dev mode detected)")
  else do
    emit (Ev.log "▶ Committing changes to git")
    tryCatchP
      (do let _ ← runP w "git" ["add", "."] {}
          let _ ← runP w "git" ["commit", "-m", "Initial commit from mknext script"]
            { allowFail := true }
          pure ())
      (fun msg => emit (Ev.warn ("Git commit skipped or failed: " ++ msg)))

/-- The editor-launch phase of mkNextApp: a platform-keyed command run with
allowFail inside a try-catch whose handler logs a warning. -/
def editorLaunchPhase (w : World) : P Unit := do
  emit (Ev.log "▶ Opening VS Code")
  tryCatchP
    (if w.platform = "darwin" then do
      let _ ← runP w "open" ["-a", "Visual Studio Code", "."] { allowFail := true }
      pure ()
    else if w.platform = "win32" then do
      let _ ← runP w "cmd" ["/c", "start", "code", "."] { allowFail := true }
      pure ()
    else do
      let _ ← runP w "code" ["."] { allowFail := true }
      pure ())
    (fun _ => emit (Ev.warn "Could not automatically open the project."))

/-- The closing success banner of mkNextApp. -/
def finalLogs (appName : String) : P Unit := do
  emit (Ev.log "\n✅ Project bootstrapped successfully. Next steps:")
  emit (Ev.log ("  cd " ++ appName))
  emit (Ev.log "  npm run dev")

/-- mkNextApp of mk-next.ts, as the sequence of its pieces in source
order. -/
def mkNextApp (w : World) (appName : String) : P Unit := do
  mkNextUntilDbPush w appName
  gitCommitPhase w
  editorLaunchPhase w
  finalLogs appName

/-- The terminal outcome of the mknext command process: a successful run
exits zero; a thrown pipeline error is printed to standard error and the
process exits one. -/
inductive CliOutcome where
  | exitZero
  | exitOne (stderrLine : String)
deriving DecidableEq

/-- The action of mkNextCommand: awaits mkNextApp, and on a thrown error
prints the prefixed message to standard error and exits with status one. -/
def mkNextCommand (w : World) (appName : String) : Trace × CliOutcome :=
  match mkNextApp w appName [] with
  | PRes.ok t _ => (t, CliOutcome.exitZero)
  | PRes.err t msg => (t, CliOutcome.exitOne ("mknext failed: " ++ msg))

/-- Whether a run of the pipeline gets past the schema push, reaching the
version-control and editor phases. -/
def reachesGitPhase (w : World) (appName : String) : Bool :=
  match mkNextUntilDbPush w appName [] with
  | PRes.ok _ _ => true
  | PRes.err _ _ => false

/-! ## Concrete worlds used by the closed theorems and witnesses -/

/-- A child-outcome table where every command exits zero and the database
provisioner prints a connection URL in its chatter. -/
def goodChild : String → List String → ChildOutcome := fun cmd args =>
  if cmd = "npx" ∧ args = ["--yes", "create-db@latest"] then
    ChildOutcome.closed (some 0) "Creating db...\npostgresql://u:p@host:5432/db\nDone" ""
  else ChildOutcome.closed (some 0) "" ""

/-- A world where every external command succeeds: linux host, packaged
install (no package.json found on the upward walk, no forcing variable),
empty templates root, trivial render engine. -/
def baseWorld : World where
  platform := "linux"
  nodeVersion := "v20.0.0"
  cwd := "/work"
  dirname := "/opt/jrod/dist/commands/mk-next"
  envVar := fun _ => none
  child := goodChild
  templatesRootEntries := some []
  dirnameLevels := []
  renderString := fun _ _ => Except.ok ""

/-- Override the outcome of one command line of a world. -/
def withChild (w : World) (cmd : String) (args : List String)
    (out : ChildOutcome) : World :=
  { w with child := fun c a => if c = cmd ∧ a = args then out else w.child c a }

/-- baseWorld with the better-auth generation step exiting nonzero. -/
def wBetterAuthFails : World :=
  withChild baseWorld "npx" ["@better-auth/cli@latest", "generate"]
    (ChildOutcome.closed (some 1) "" "")

/-- baseWorld with the better-auth generation step unable to spawn. -/
def wBetterAuthSpawnFails : World :=
  withChild baseWorld "npx" ["@better-auth/cli@latest", "generate"]
    (ChildOutcome.spawnError "spawn npx ENOENT")

/-- baseWorld with prisma generate exiting nonzero. -/
def wPrismaGenFails : World :=
  withChild baseWorld "npx" ["prisma", "generate"] (ChildOutcome.closed (some 1) "" "")

/-- baseWorld with the schema push exiting nonzero. -/
def wDbPushFails : World :=
  withChild baseWorld "npx" ["env-cmd", "-f", ".env.local", "prisma", "db", "push"]
    (ChildOutcome.closed (some 1) "" "")

/-- baseWorld with a provisioner that exits nonzero and prints no
connection URL. -/
def wNoDbUrl : World :=
  withChild baseWorld "npx" ["--yes", "create-db@latest"]
    (ChildOutcome.closed (some 1) "Creating db...\nDone" "")

/-- baseWorld with the primary scaffold unable to spawn. -/
def wScaffoldFails : World :=
  withChild baseWorld "npx" (scaffoldArgs "app") (ChildOutcome.spawnError "spawn npx ENOENT")

/-- baseWorld with the git executable unrunnable. -/
def wGitAddSpawnFails : World :=
  withChild baseWorld "git" ["add", "."] (ChildOutcome.spawnError "spawn git ENOENT")

/-- baseWorld with git commit exiting nonzero. -/
def wGitCommitFails : World :=
  withChild baseWorld "git" ["commit", "-m", "Initial commit from mknext script"]
    (ChildOutcome.closed (some 1) "" "error: nothing to commit")

/-- baseWorld forced into dev mode through the environment variable. -/
def wDev : World :=
  { baseWorld with envVar := fun k => if k = "JR_SCRIPTS_FORCE_DEV" then some "1" else none }

/-! ## Theorems -/

/-- C7: calling the template renderer with a nonexistent templates root
never raises, never creates the destination root, and leaves the
destination filesystem untouched: the call returns successfully and its
effect list holds nothing but console warnings (no write, no directory
creation). -/
theorem spec_C7_missing_templates_root (rs : String → JsObj → Except String String)
    (opts : RenderTemplatesOptions) :
    ∃ effs, renderTemplates rs none opts = Except.ok effs ∧
      effs.all (fun e => match e with | RenderEffect.warn _ => true | _ => false) = true := by
  refine ⟨_, rfl, ?_⟩
  cases hv : opts.verbose <;> simp [hv]

/-- C3: the capturing runner rejects with the spawn error when the
executable cannot be spawned; on a nonzero exit code it rejects with a
command-failed error carrying the exit code and the captured stderr when
allowFail is false (the default), and resolves with a result carrying that
code plus the captured stdout and stderr when allowFail is true. -/
theorem spec_C3_runner_failure_policy (cmd : String) (args : List String)
    (e so se : String) (c : Int) (hc : c ≠ 0) :
    run cmd args {} (ChildOutcome.spawnError e) = Except.error (RunError.spawnError e) ∧
    run cmd args {} (ChildOutcome.closed (some c) so se) =
      Except.error (RunError.commandFailed cmd args (some c) se) ∧
    run cmd args { allowFail := true } (ChildOutcome.closed (some c) so se) =
      Except.ok { code := some c, stdout := so, stderr := se } := by
  refine ⟨rfl, ?_, ?_⟩ <;> simp [run, hc]

/-- C3 witness at exit code three. -/
theorem spec_C3_witness :
    run "tool" ["x"] {} (ChildOutcome.closed (some 3) "out" "boom") =
      Except.error (RunError.commandFailed "tool" ["x"] (some 3) "boom") ∧
    run "tool" ["x"] { allowFail := true } (ChildOutcome.closed (some 3) "out" "boom") =
      Except.ok { code := some 3, stdout := "out", stderr := "boom" } :=
  ⟨(spec_C3_runner_failure_policy "tool" ["x"] "" "out" "boom" 3 (by decide)).2.1,
   (spec_C3_runner_failure_policy "tool" ["x"] "" "out" "boom" 3 (by decide)).2.2⟩

/-- C10: a child that terminates without an exit code (close with null) is
treated by run exactly like a nonzero exit: rejection as a command failure
when allowFail is false, and a successful result whose code is null when
allowFail is true. -/
theorem spec_C10_null_exit_code (cmd : String) (args : List String) (so se : String) :
    run cmd args {} (ChildOutcome.closed none so se) =
      Except.error (RunError.commandFailed cmd args none se) ∧
    run cmd args { allowFail := true } (ChildOutcome.closed none so se) =
      Except.ok { code := none, stdout := so, stderr := se } := by
  constructor <;> simp [run]

/-- C2: value extraction splits the captured stdout on whitespace runs and
returns the first token with the postgresql scheme, recovering exactly the
URL from the documented stdout; when no token matches it yields the empty
fallback, and the orchestrator - which ran the provisioning command with
allowFail - promotes that to a fatal pipeline error naming create-db. -/
theorem spec_C2_value_extraction :
    extractDbUrl "Creating db...\npostgresql://u:p@host:5432/db\nDone" =
      "postgresql://u:p@host:5432/db" ∧
    (∀ s, (splitWs s).find? (fun tok => strStartsWith tok "postgresql://") = none →
      extractDbUrl s = "") ∧
    (mkNextCommand wNoDbUrl "app").2 =
      CliOutcome.exitOne "mknext failed: Failed to obtain a database URL from create-db." ∧
    Ev.ran "npx" ["--yes", "create-db@latest"] ∈ (mkNextCommand wNoDbUrl "app").1 := by
  refine ⟨by decide, ?_, by decide, by decide⟩
  intro s h
  simp [extractDbUrl, h]

/-- C2 witness: stdout with no matching token extracts to the empty
fallback. -/
theorem spec_C2_witness : extractDbUrl "Creating db... Done" = "" :=
  spec_C2_value_extraction.2.1 "Creating db... Done" (by decide)

/-- C4 counterexample: in a run where every step succeeds except the
better-auth generation step, which exits with code one, the step is
invoked, fails, and the pipeline still terminates successfully - so not
every post-render step is fatal on failure, contrary to the claim. -/
theorem spec_C4_counterexample :
    wBetterAuthFails.child "npx" ["@better-auth/cli@latest", "generate"] =
      ChildOutcome.closed (some 1) "" "" ∧
    Ev.ran "npx" ["@better-auth/cli@latest", "generate"] ∈
      (mkNextCommand wBetterAuthFails "app").1 ∧
    (mkNextCommand wBetterAuthFails "app").2 = CliOutcome.exitZero := by decide

/-- C4 amended: of the post-render steps, prisma generate and the schema
push are required - their failure aborts the pipeline with exit status one -
while the better-auth generation step runs with allowFail, so its nonzero
exit is tolerated and only its spawn failure aborts. -/
theorem spec_C4_postprocess_policy :
    (mkNextCommand wBetterAuthFails "app").2 = CliOutcome.exitZero ∧
    (mkNextCommand wBetterAuthSpawnFails "app").2 =
      CliOutcome.exitOne "mknext failed: spawn npx ENOENT" ∧
    (mkNextCommand wPrismaGenFails "app").2 =
      CliOutcome.exitOne "mknext failed: npx prisma generate failed with code 1" ∧
    (mkNextCommand wDbPushFails "app").2 =
      CliOutcome.exitOne
        "mknext failed: npx env-cmd -f .env.local prisma db push failed with code 1" := by
  decide

/-- C1: for a template entry with global data and per-file overrides
registered under both its destination-relative path and its
template-relative path, all defining the same key, the value the renderer
passes to the engine for that key - observed here through a probe engine
that renders the value of the key - is the destination-path value;
with only a template-path override registered, that override still wins
over the global data. -/
theorem spec_C1_override_precedence (nm tpl g d t : String)
    (h : strEndsWith nm ".eta" = true) (hne : strDropRight nm 4 ≠ nm) :
    renderTemplates (probeKey "a") (some [(nm, FsNode.file tpl)])
      { projectDir := "proj", templatesDir := "T", data := [("a", g)], verbose := false,
        varMap := some [(strDropRight nm 4, [("a", d)]), (nm, [("a", t)])] } =
      Except.ok [RenderEffect.mkdirp (pathDirname (joinPath "proj" (strDropRight nm 4))),
                 RenderEffect.write (joinPath "proj" (strDropRight nm 4)) d] ∧
    renderTemplates (probeKey "a") (some [(nm, FsNode.file tpl)])
      { projectDir := "proj", templatesDir := "T", data := [("a", g)], verbose := false,
        varMap := some [(nm, [("a", t)])] } =
      Except.ok [RenderEffect.mkdirp (pathDirname (joinPath "proj" (strDropRight nm 4))),
                 RenderEffect.write (joinPath "proj" (strDropRight nm 4)) t] := by
  have hb : (nm == strDropRight nm 4) = false := by
    simp only [beq_eq_false_iff_ne]
    exact Ne.symm hne
  constructor <;>
    simp [renderTemplates, renderEntries, renderNode, joinRel, stripEtaSuffix,
      fileVarsFor, lookupVars, spreadMerge, probeKey, JsObj.get, h, hne, hb,
      List.find?, bind, Except.bind]

/-- C1 witness at a concrete template entry name. -/
theorem spec_C1_witness :
    renderTemplates (probeKey "a") (some [("page.tsx.eta", FsNode.file "tpl")])
      { projectDir := "proj", templatesDir := "T", data := [("a", "1")], verbose := false,
        varMap := some [(strDropRight "page.tsx.eta" 4, [("a", "2")]),
                        ("page.tsx.eta", [("a", "3")])] } =
      Except.ok
        [RenderEffect.mkdirp (pathDirname (joinPath "proj" (strDropRight "page.tsx.eta" 4))),
         RenderEffect.write (joinPath "proj" (strDropRight "page.tsx.eta" 4)) "2"] ∧
    renderTemplates (probeKey "a") (some [("page.tsx.eta", FsNode.file "tpl")])
      { projectDir := "proj", templatesDir := "T", data := [("a", "1")], verbose := false,
        varMap := some [("page.tsx.eta", [("a", "3")])] } =
      Except.ok
        [RenderEffect.mkdirp (pathDirname (joinPath "proj" (strDropRight "page.tsx.eta" 4))),
         RenderEffect.write (joinPath "proj" (strDropRight "page.tsx.eta" 4)) "3"] :=
  spec_C1_override_precedence "page.tsx.eta" "tpl" "1" "2" "3" (by decide) (by decide)

/-- C9: when per-file overrides exist under both the destination-relative
path and the template-relative path of an entry, the destination-keyed
object is used wholesale and the template-keyed one is ignored entirely: a
key present only in the template-keyed override contributes nothing to the
effective scope (the probe of key b reports it missing), and even an empty
destination-keyed override suppresses the whole template-keyed object (the
probe of key a falls through to the global value, not the template-keyed
one). -/
theorem spec_C9_whole_object_selection (nm tpl g d tv bv : String)
    (h : strEndsWith nm ".eta" = true) :
    renderTemplates (probeKey "b") (some [(nm, FsNode.file tpl)])
      { projectDir := "proj", templatesDir := "T", data := [("a", g)], verbose := false,
        varMap := some [(strDropRight nm 4, [("a", d)]), (nm, [("a", tv), ("b", bv)])] } =
      Except.ok [RenderEffect.mkdirp (pathDirname (joinPath "proj" (strDropRight nm 4))),
                 RenderEffect.write (joinPath "proj" (strDropRight nm 4)) "<missing>"] ∧
    renderTemplates (probeKey "a") (some [(nm, FsNode.file tpl)])
      { projectDir := "proj", templatesDir := "T", data := [("a", g)], verbose := false,
        varMap := some [(strDropRight nm 4, []), (nm, [("a", tv)])] } =
      Except.ok [RenderEffect.mkdirp (pathDirname (joinPath "proj" (strDropRight nm 4))),
                 RenderEffect.write (joinPath "proj" (strDropRight nm 4)) g] := by
  constructor <;>
    simp [renderTemplates, renderEntries, renderNode, joinRel, stripEtaSuffix,
      fileVarsFor, lookupVars, spreadMerge, probeKey, JsObj.get, h,
      List.find?, bind, Except.bind]

/-- C9 witness at a concrete template entry name. -/
theorem spec_C9_witness :
    renderTemplates (probeKey "b") (some [("page.tsx.eta", FsNode.file "tpl")])
      { projectDir := "proj", templatesDir := "T", data := [("a", "g")], verbose := false,
        varMap := some [(strDropRight "page.tsx.eta" 4, [("a", "d")]),
                        ("page.tsx.eta", [("a", "tv"), ("b", "bv")])] } =
      Except.ok
        [RenderEffect.mkdirp (pathDirname (joinPath "proj" (strDropRight "page.tsx.eta" 4))),
         RenderEffect.write (joinPath "proj" (strDropRight "page.tsx.eta" 4)) "<missing>"] ∧
    renderTemplates (probeKey "a") (some [("page.tsx.eta", FsNode.file "tpl")])
      { projectDir := "proj", templatesDir := "T", data := [("a", "g")], verbose := false,
        varMap := some [(strDropRight "page.tsx.eta" 4, []), ("page.tsx.eta", [("a", "tv")])] } =
      Except.ok
        [RenderEffect.mkdirp (pathDirname (joinPath "proj" (strDropRight "page.tsx.eta" 4))),
         RenderEffect.write (joinPath "proj" (strDropRight "page.tsx.eta" 4)) "g"] :=
  spec_C9_whole_object_selection "page.tsx.eta" "tpl" "g" "d" "tv" "bv" (by decide)

/-- Unfolding lemma: sequencing applied to a trace. -/
theorem pbind_apply {α β : Type} (m : P α) (f : α → P β) (t : Trace) :
    (m >>= f) t = match m t with
      | PRes.ok u a => f a u
      | PRes.err u msg => PRes.err u msg := rfl

/-- Unfolding lemma: pure applied to a trace. -/
theorem ppure_apply {α : Type} (a : α) (t : Trace) : (pure a : P α) t = PRes.ok t a := rfl

/-- Unfolding lemma: emit applied to a trace. -/
theorem emit_apply (e : Ev) (t : Trace) : emit e t = PRes.ok (t ++ [e]) () := rfl

/-- Unfolding lemma: pfail applied to a trace. -/
theorem pfail_apply {α : Type} (msg : String) (t : Trace) :
    (pfail msg : P α) t = PRes.err t msg := rfl

/-- Unfolding lemma: tryCatchP applied to a trace. -/
theorem tryCatchP_apply {α : Type} (m : P α) (h : String → P α) (t : Trace) :
    tryCatchP m h t = match m t with
      | PRes.ok u a => PRes.ok u a
      | PRes.err u msg => h msg u := rfl

/-- Unfolding lemma: runP applied to a trace. -/
theorem runP_apply (w : World) (cmd : String) (args : List String) (opts : RunOptions)
    (t : Trace) :
    runP w cmd args opts t = match run cmd args opts (w.child cmd args) with
      | Except.ok r => PRes.ok (t ++ [Ev.ran cmd args]) r
      | Except.error er => PRes.err (t ++ [Ev.ran cmd args]) er.message := rfl

/-- Unfolding lemma: runInheritP applied to a trace. -/
theorem runInheritP_apply (w : World) (cmd : String) (args : List String) (t : Trace) :
    runInheritP w cmd args t = match runInherit cmd args (w.child cmd args) with
      | Except.ok _ => PRes.ok (t ++ [Ev.ranInherit cmd args]) ()
      | Except.error er => PRes.err (t ++ [Ev.ranInherit cmd args]) er.message := rfl

/-- C5: in any run whose preflight npm probe succeeds, a failing primary
scaffold (create-next-app) short-circuits the whole pipeline: the trace
holds exactly the npm probe, the creating log and the scaffold spawn - no
phase from the dependency installs through the editor launch is ever
invoked - and the command wrapper prints the scaffold failure reason to
standard error and exits with status one. -/
theorem spec_C5_scaffold_short_circuit (w : World) (appName npmOut npmErr : String)
    (er : RunError)
    (hname : ¬ appName = "") (hnode : ¬ w.nodeVersion = "")
    (hnpm : w.child "npm" ["--version"] = ChildOutcome.closed (some 0) npmOut npmErr)
    (hscaffold : runInherit "npx" (scaffoldArgs appName) (w.child "npx" (scaffoldArgs appName)) =
      Except.error er) :
    mkNextCommand w appName =
      ([Ev.ran "npm" ["--version"],
        Ev.log ("▶ Creating Next.js app: " ++ appName),
        Ev.ranInherit "npx" (scaffoldArgs appName)],
       CliOutcome.exitOne ("mknext failed: " ++ er.message)) := by
  simp [mkNextCommand, mkNextApp, mkNextUntilDbPush, pbind_apply, ppure_apply, emit_apply,
    pfail_apply, tryCatchP_apply, runP_apply, runInheritP_apply, run, hnpm, hscaffold,
    hname, hnode]

/-- C5 witness: a concrete world whose scaffold cannot spawn. -/
theorem spec_C5_witness :
    mkNextCommand wScaffoldFails "app" =
      ([Ev.ran "npm" ["--version"],
        Ev.log "▶ Creating Next.js app: app",
        Ev.ranInherit "npx" (scaffoldArgs "app")],
       CliOutcome.exitOne "mknext failed: spawn npx ENOENT") :=
  spec_C5_scaffold_short_circuit wScaffoldFails "app" "" ""
    (RunError.spawnError "spawn npx ENOENT") (by decide) (by decide) (by decide) (by rfl)

/-- A try-catch whose handler only logs an event can never propagate a
failure: it always produces a success, whatever the guarded computation
does. -/
theorem tryCatchP_emit_total (m : P Unit) (f : String → Ev) (t : Trace) :
    ∃ u, tryCatchP m (fun msg => emit (f msg)) t = PRes.ok u () := by
  unfold tryCatchP
  cases h : m t with
  | ok u a => cases a; exact ⟨u, by simp [h]⟩
  | err u msg => exact ⟨u ++ [f msg], by simp [h, emit_apply]⟩

/-- The version-control phase always succeeds, whatever the git commands
do: a thrown failure is caught and turned into a warning. -/
theorem gitCommitPhase_total (w : World) (t : Trace) :
    ∃ u, gitCommitPhase w t = PRes.ok u () := by
  unfold gitCommitPhase
  cases hdev : isDevEnvironment (w.envVar "JR_SCRIPTS_FORCE_DEV") w.dirnameLevels with
  | true =>
      exact ⟨t ++ [Ev.log "▶ Skipping git commit (dev mode detected)"], by simp [emit_apply]⟩
  | false =>
      simp only [Bool.false_eq_true, if_false, pbind_apply, emit_apply]
      exact tryCatchP_emit_total _ _ _

/-- The editor-launch phase always succeeds, whatever the platform and the
editor command do. -/
theorem editorLaunchPhase_total (w : World) (t : Trace) :
    ∃ u, editorLaunchPhase w t = PRes.ok u () := by
  unfold editorLaunchPhase
  simp only [pbind_apply, emit_apply]
  exact tryCatchP_emit_total _ _ _

/-- C6 counterexample: in a run where git commit exits nonzero (a failure
of the version-control commit), the terminal state is still success - but
no warning is ever logged, because the commit is invoked with allowFail
and its nonzero exit is accepted silently; so the part of the claim that
says both failures are logged as warnings does not hold. -/
theorem spec_C6_counterexample :
    wGitCommitFails.child "git" ["commit", "-m", "Initial commit from mknext script"] =
      ChildOutcome.closed (some 1) "" "error: nothing to commit" ∧
    (mkNextCommand wGitCommitFails "app").2 = CliOutcome.exitZero ∧
    ((mkNextCommand wGitCommitFails "app").1.all
      (fun e => match e with | Ev.warn _ => false | _ => true)) = true := by decide

/-- C6 amended: for every run reaching the version-control and editor
phases, no failure of either phase escapes it or changes the terminal
state from success: the pipeline exits zero whenever the prefix through
the schema push succeeded, and both phases always produce a success
whatever git, the platform and the editor command do.  Failures that
surface as exceptions are logged as warnings - as the last conjunct shows
for an unrunnable git executable - while a nonzero exit of git commit or
of the editor command is accepted silently by allowFail. -/
theorem spec_C6_best_effort_isolation :
    (∀ w appName, reachesGitPhase w appName = true →
      (mkNextCommand w appName).2 = CliOutcome.exitZero) ∧
    (∀ w t, ∃ u, gitCommitPhase w t = PRes.ok u ()) ∧
    (∀ w t, ∃ u, editorLaunchPhase w t = PRes.ok u ()) ∧
    (∀ w t e,
      isDevEnvironment (w.envVar "JR_SCRIPTS_FORCE_DEV") w.dirnameLevels = false →
      w.child "git" ["add", "."] = ChildOutcome.spawnError e →
      gitCommitPhase w t = PRes.ok (t ++ [Ev.log "▶ Committing changes to git",
        Ev.ran "git" ["add", "."],
        Ev.warn ("Git commit skipped or failed: " ++ e)]) ()) := by
  refine ⟨?_, gitCommitPhase_total, editorLaunchPhase_total, ?_⟩
  · intro w appName h
    cases hm : mkNextUntilDbPush w appName [] with
    | err u msg => simp [reachesGitPhase, hm] at h
    | ok u a =>
        cases a
        obtain ⟨u2, hg⟩ := gitCommitPhase_total w u
        obtain ⟨u3, he⟩ := editorLaunchPhase_total w u2
        simp [mkNextCommand, mkNextApp, pbind_apply, hm, hg, he, finalLogs, emit_apply]
  · intro w t e hdev hadd
    unfold gitCommitPhase
    simp [hdev, pbind_apply, emit_apply, tryCatchP_apply, runP_apply, run, hadd,
      RunError.message]

/-- C6 witness: a concrete world whose git executable cannot spawn still
terminates with exit status zero. -/
theorem spec_C6_witness :
    (mkNextCommand wGitAddSpawnFails "app").2 = CliOutcome.exitZero :=
  spec_C6_best_effort_isolation.1 wGitAddSpawnFails "app" (by decide)

/-- The bounded walk of the detector equals a nearest-manifest test: it
finds the first level among the examined ones that holds a package
manifest, and answers whether a version-control directory sits beside it;
with no manifest in range the answer is no. -/
theorem devWalk_eq_find (n : Nat) (ls : List DirLevel) :
    devWalk n ls =
      ((ls.take n).find? (fun l => l.hasPackageJson)).elim false (fun l => l.hasGitDir) := by
  induction n generalizing ls with
  | zero => simp [devWalk]
  | succ n ih =>
      cases ls with
      | nil => simp [devWalk]
      | cons l rest =>
          by_cases hp : l.hasPackageJson = true <;>
            simp [devWalk, hp, List.find?, List.take_succ_cons, ih]

/-- C8 counterexample: a directory chain whose nearest level has a package
manifest but no version-control directory, while its parent has both.
Some level within the six-level bound holds a manifest co-located with
version-control metadata - the reading of the claim - yet the detector
answers false, because its walk stops at the first manifest it meets. -/
theorem spec_C8_counterexample :
    specDevWalkFinds [{ hasPackageJson := true, hasGitDir := false },
                      { hasPackageJson := true, hasGitDir := true }] = true ∧
    isDevEnvironment none [{ hasPackageJson := true, hasGitDir := false },
                           { hasPackageJson := true, hasGitDir := true }] = false := by
  decide

/-- C8 amended: development-mode detection returns true exactly when the
forcing environment variable is set to the string 1, or when the nearest
level within the six examined that holds a package manifest also holds a
version-control directory (a manifest met first without one stops the
walk with a negative answer, even when a higher level has both); and
whenever the detection is true, the version-control phase of the pipeline
is skipped entirely, leaving only the skip log. -/
theorem spec_C8_dev_detection :
    (∀ fd ls, isDevEnvironment fd ls = true ↔
      (fd = some "1" ∨
        ((ls.take 6).find? (fun l => l.hasPackageJson)).elim false
          (fun l => l.hasGitDir) = true)) ∧
    (∀ w t, isDevEnvironment (w.envVar "JR_SCRIPTS_FORCE_DEV") w.dirnameLevels = true →
      gitCommitPhase w t =
        PRes.ok (t ++ [Ev.log "▶ Skipping git commit (dev mode detected)"]) ()) := by
  constructor
  · intro fd ls
    by_cases hfd : fd = some "1" <;> simp [isDevEnvironment, hfd, devWalk_eq_find]
  · intro w t hdev
    unfold gitCommitPhase
    simp [hdev, emit_apply]

/-- C8 witness: under the forced environment variable the detection is
positive and the pipeline skips the commit phase. -/
theorem spec_C8_witness :
    gitCommitPhase wDev [] =
      PRes.ok [Ev.log "▶ Skipping git commit (dev mode detected)"] () :=
  spec_C8_dev_detection.2 wDev [] (by decide)
